import Mathlib

/-!
Shallow embedding of the ClassBookingBE booking/session consistency engine
(src/src/services/booking_service.py and src/src/services/session_service.py),
together with theorems settling the frozen claims about it.

Modelling conventions:
* Timestamps are integers counting minutes; `timedelta(hours=2)` is 120,
  `timedelta(hours=4)` is 240.
* The SQLAlchemy session (`self.db`) is an explicit `DB` record threaded
  through each operation; `query(...).filter(...)` becomes `List.filter` /
  `List.find?`, autoincrement primary keys become `next_booking_id` /
  `next_session_id` counters.
* Python `raise ValueError(msg)` sites are mapped one-to-one to constructors
  of `Err` named after the spec's error taxonomy (§7); operations that raise
  return `Except Err _`.
* Operations that would throw an `AttributeError` on a dangling foreign key
  (e.g. a session whose class row is missing) return `none` in an outer
  `Option` layer; theorems carry the foreign-key hypotheses that keep the
  Python code off those paths.
* Python truthiness tests (`if user_id:`, `if location:`, `if reason:`) are
  modelled exactly: `0`, `None` and `""` are falsy (`pyTruthyId`,
  `pyTruthyStr`).
* SQL `column == value` comparisons never match a NULL column; with
  `location : Option String` this is exactly `Option` equality against
  `some value`.
-/

namespace ClassBooking

/-- Booking status enumeration, from src/src/schemas/booking.py. -/
inductive BookingStatus
  | PENDING
  | CONFIRMED
  | CANCELLED
  | COMPLETED
  | NO_SHOW
deriving DecidableEq

/-- Session status enumeration, from src/src/schemas/session.py. -/
inductive SessionStatus
  | SCHEDULED
  | ONGOING
  | COMPLETED
  | CANCELLED
  | POSTPONED
deriving DecidableEq

/-- Failure kinds, the spec's §7 taxonomy; each constructor corresponds to one
`raise ValueError(...)` site in the service code. -/
inductive Err
  | NotFound
  | NotBookable
  | PastSession
  | CapacityExceeded
  | DuplicateBooking
  | DeadlinePassed
  | Forbidden
  | SchedulingConflict
  | InvalidTransition
  | TooEarly
deriving DecidableEq

/-- Class row: only the fields the embedded operations read (`id`,
`max_capacity`); the remaining columns (name, price, ...) do not influence
any claim. -/
structure Class where
  id : Nat
  max_capacity : Nat
deriving DecidableEq

/-- Session row, fields as read and written by the services. -/
structure SessionModel where
  id : Nat
  class_id : Nat
  start_time : Int
  end_time : Int
  location : Option String
  special_notes : Option String
  status : SessionStatus
  created_by : Nat
  updated_at : Option Int
deriving DecidableEq

/-- Booking row, fields as read and written by the services. -/
structure Booking where
  id : Nat
  user_id : Nat
  session_id : Nat
  status : BookingStatus
  booking_date : Int
  notes : Option String
  admin_notes : Option String
  updated_at : Option Int
deriving DecidableEq

/-- The transactional store: the three tables the claims touch plus the
autoincrement counters. -/
structure DB where
  classes : List Class
  sessions : List SessionModel
  bookings : List Booking
  next_session_id : Nat
  next_booking_id : Nat
deriving DecidableEq

/-- Python truthiness of an optional integer id: `None` and `0` are falsy. -/
def pyTruthyId : Option Nat → Bool
  | none => false
  | some u => u != 0

/-- Python truthiness of an optional string: `None` and `""` are falsy. -/
def pyTruthyStr : Option String → Bool
  | none => false
  | some s => s != ""

/-- Lookup `query(Class).filter(Class.id == cid).first()`. -/
def getClass (db : DB) (cid : Nat) : Option Class :=
  db.classes.find? (fun c => c.id == cid)

/-- Lookup `query(Session).filter(Session.id == sid).first()`. -/
def getSession (db : DB) (sid : Nat) : Option SessionModel :=
  db.sessions.find? (fun s => s.id == sid)

/-- Lookup `query(Booking).filter(Booking.id == bid).first()`. -/
def getBooking (db : DB) (bid : Nat) : Option Booking :=
  db.bookings.find? (fun b => b.id == bid)

/-- Membership test `status.in_(["PENDING", "CONFIRMED"])`: the spec's
"active booking" notion. -/
def isActiveStatus (s : BookingStatus) : Bool :=
  s == BookingStatus.PENDING || s == BookingStatus.CONFIRMED

/-- BookingService.get_session_booking_count: count of PENDING/CONFIRMED
bookings for the session. -/
def get_session_booking_count (db : DB) (session_id : Nat) : Nat :=
  (db.bookings.filter (fun b =>
    b.session_id == session_id && isActiveStatus b.status)).length

/-- Commit of an ORM-object mutation: replace the row with this primary key. -/
def setBooking (db : DB) (b' : Booking) : DB :=
  { db with bookings := db.bookings.map (fun b => if b.id == b'.id then b' else b) }

/-- Commit of an ORM-object mutation: replace the row with this primary key. -/
def setSession (db : DB) (s' : SessionModel) : DB :=
  { db with sessions := db.sessions.map (fun s => if s.id == s'.id then s' else s) }

/-- `timedelta(hours=2)` in minutes: the booking deadline offset. -/
def bookingDeadlineMinutes : Int := 120

/-- `timedelta(hours=4)` in minutes: the cancellation deadline offset. -/
def cancellationDeadlineMinutes : Int := 240

/-- BookingService.create_booking (booking_service.py lines 23-73): the six
ordered checks, then insertion of a PENDING booking dated `now`. -/
def create_booking (db : DB) (now : Int) (session_id user_id : Nat)
    (notes : Option String) : Option (Except Err (Booking × DB)) :=
  match getSession db session_id with
  | none => some (Except.error Err.NotFound)
  | some session =>
    if session.status ≠ SessionStatus.SCHEDULED then
      some (Except.error Err.NotBookable)
    else if session.start_time ≤ now then
      some (Except.error Err.PastSession)
    else
      match getClass db session.class_id with
      | none => none
      | some cls =>
        if get_session_booking_count db session_id ≥ cls.max_capacity then
          some (Except.error Err.CapacityExceeded)
        else if db.bookings.any (fun b =>
            b.user_id == user_id && b.session_id == session_id &&
            isActiveStatus b.status) then
          some (Except.error Err.DuplicateBooking)
        else if now > session.start_time - bookingDeadlineMinutes then
          some (Except.error Err.DeadlinePassed)
        else
          let b : Booking :=
            { id := db.next_booking_id, user_id := user_id,
              session_id := session_id, status := BookingStatus.PENDING,
              booking_date := now, notes := notes, admin_notes := none,
              updated_at := none }
          some (Except.ok (b, { db with
            bookings := db.bookings ++ [b],
            next_booking_id := db.next_booking_id + 1 }))

/-- The guard `if user_id and booking.user_id != user_id` shared by
update_booking and cancel_booking: truthy acting id that differs from the
owner. -/
def ownershipViolation (acting : Option Nat) (owner : Nat) : Bool :=
  pyTruthyId acting && acting.getD 0 != owner

/-- The f-string `f"{booking.admin_notes or ''}\nCancellation reason: {reason}"`. -/
def appendCancellationReason (admin_notes : Option String) (reason : String) : String :=
  admin_notes.getD "" ++ "\nCancellation reason: " ++ reason

/-- BookingService.cancel_booking (booking_service.py lines 217-246).
Returns `false` when the booking id is unknown; errors `Forbidden` on a
truthy non-owner acting id, `DeadlinePassed` past the 4-hour cutoff when the
acting id is truthy; otherwise sets CANCELLED, optionally appends the reason
to the admin notes, stamps the update timestamp. -/
def cancel_booking (db : DB) (now : Int) (booking_id : Nat) (user_id : Option Nat)
    (reason : Option String) : Option (Except Err (Bool × DB)) :=
  match getBooking db booking_id with
  | none => some (Except.ok (false, db))
  | some booking =>
    if ownershipViolation user_id booking.user_id then
      some (Except.error Err.Forbidden)
    else
      match getSession db booking.session_id with
      | none => none
      | some session =>
        if now > session.start_time - cancellationDeadlineMinutes ∧
            pyTruthyId user_id then
          some (Except.error Err.DeadlinePassed)
        else
          let b' : Booking :=
            { booking with
              status := BookingStatus.CANCELLED,
              updated_at := some now,
              admin_notes :=
                if pyTruthyStr reason then
                  some (appendCancellationReason booking.admin_notes (reason.getD ""))
                else booking.admin_notes }
          some (Except.ok (true, setBooking db b'))

/-- BookingUpdate patch, from src/src/schemas/booking.py: an outer `none`
means the field was not set in the patch (pydantic `exclude_unset`). -/
structure BookingUpdate where
  status : Option BookingStatus := none
  notes : Option (Option String) := none
  admin_notes : Option (Option String) := none
deriving DecidableEq

/-- The `setattr` loop of update_booking over `dict(exclude_unset=True)`,
followed by the update-timestamp stamp. -/
def apply_booking_update (b : Booking) (patch : BookingUpdate) (now : Int) : Booking :=
  { b with
    status := patch.status.getD b.status,
    notes := match patch.notes with | none => b.notes | some v => v,
    admin_notes := match patch.admin_notes with | none => b.admin_notes | some v => v,
    updated_at := some now }

/-- BookingService.update_booking (booking_service.py lines 193-215): `none`
result when the id is unknown; `Forbidden` on a truthy non-owner acting id;
otherwise applies exactly the patched fields and stamps the timestamp — no
state-machine guard. -/
def update_booking (db : DB) (now : Int) (booking_id : Nat) (patch : BookingUpdate)
    (user_id : Option Nat) : Except Err (Option (Booking × DB)) :=
  match getBooking db booking_id with
  | none => Except.ok none
  | some booking =>
    if ownershipViolation user_id booking.user_id then
      Except.error Err.Forbidden
    else
      let b' := apply_booking_update booking patch now
      Except.ok (some (b', setBooking db b'))

/-- BookingService.confirm_booking (booking_service.py lines 248-264). -/
def confirm_booking (db : DB) (now : Int) (booking_id : Nat) :
    Except Err (Bool × DB) :=
  match getBooking db booking_id with
  | none => Except.ok (false, db)
  | some booking =>
    if booking.status ≠ BookingStatus.PENDING then
      Except.error Err.InvalidTransition
    else
      Except.ok (true, setBooking db
        { booking with status := BookingStatus.CONFIRMED, updated_at := some now })

/-- BookingService.mark_attendance (booking_service.py lines 266-283). -/
def mark_attendance (db : DB) (now : Int) (booking_id : Nat) (attended : Bool) :
    Option (Except Err (Bool × DB)) :=
  match getBooking db booking_id with
  | none => some (Except.ok (false, db))
  | some booking =>
    match getSession db booking.session_id with
    | none => none
    | some session =>
      if session.start_time > now then
        some (Except.error Err.TooEarly)
      else
        let st := if attended then BookingStatus.COMPLETED else BookingStatus.NO_SHOW
        some (Except.ok (true, setBooking db
          { booking with status := st, updated_at := some now }))

/-- BookingStats result record; the two rates are exact rationals. -/
structure BookingStats where
  total_bookings : Nat
  confirmed_bookings : Nat
  cancelled_bookings : Nat
  pending_bookings : Nat
  completion_rate : ℚ
  no_show_rate : ℚ
deriving DecidableEq

/-- BookingService.get_booking_stats (booking_service.py lines 285-318):
counts by status over the optional creation-date window, rates guarded
against a zero total. -/
def get_booking_stats (db : DB) (start_date end_date : Option Int) : BookingStats :=
  let bookings := db.bookings.filter (fun b =>
    (match start_date with | none => true | some d => decide (d ≤ b.booking_date)) &&
    (match end_date with | none => true | some d => decide (b.booking_date ≤ d)))
  let total := bookings.length
  let completed := (bookings.filter (fun b => b.status == BookingStatus.COMPLETED)).length
  let no_shows := (bookings.filter (fun b => b.status == BookingStatus.NO_SHOW)).length
  { total_bookings := total
    confirmed_bookings := (bookings.filter (fun b => b.status == BookingStatus.CONFIRMED)).length
    cancelled_bookings := (bookings.filter (fun b => b.status == BookingStatus.CANCELLED)).length
    pending_bookings := (bookings.filter (fun b => b.status == BookingStatus.PENDING)).length
    completion_rate := if total > 0 then (completed : ℚ) / (total : ℚ) * 100 else 0
    no_show_rate := if total > 0 then (no_shows : ℚ) / (total : ℚ) * 100 else 0 }

/-- The SQL overlap disjunction used by SessionService.check_scheduling_conflicts
(session_service.py lines 250-254): three `and_` clauses `or_`-ed together,
comparing the candidate row against the requested `[start_time, end_time)`. -/
def overlapsSQL (s : SessionModel) (start_time end_time : Int) : Bool :=
  (decide (s.start_time ≤ start_time) && decide (s.end_time > start_time)) ||
  (decide (s.start_time < end_time) && decide (s.end_time ≥ end_time)) ||
  (decide (s.start_time ≥ start_time) && decide (s.end_time ≤ end_time))

/-- Membership test `status.in_([SCHEDULED, ONGOING])`. -/
def isActiveSessionStatus (st : SessionStatus) : Bool :=
  st == SessionStatus.SCHEDULED || st == SessionStatus.ONGOING

/-- SessionService.check_scheduling_conflicts (session_service.py lines
239-263).  The location filter is added only when the requested `location`
is truthy (`if location:`), and — SQL semantics — a row whose location
column is NULL never satisfies `SessionModel.location == location`.  The
self-exclusion filter is added only when `exclude_session_id` is truthy. -/
def check_scheduling_conflicts (db : DB) (start_time end_time : Int)
    (location : Option String) (exclude_session_id : Option Nat) :
    List SessionModel :=
  db.sessions.filter (fun s =>
    isActiveSessionStatus s.status &&
    overlapsSQL s start_time end_time &&
    (!pyTruthyStr location || s.location == location) &&
    (!pyTruthyId exclude_session_id || s.id != exclude_session_id.getD 0))

/-- SessionCreate payload, from src/src/schemas/session.py (the pydantic
validator guarantees `end_time > start_time` before the service runs; that
fact appears as a hypothesis on the theorems, not here). -/
structure SessionCreate where
  class_id : Nat
  start_time : Int
  end_time : Int
  location : Option String := none
  special_notes : Option String := none
deriving DecidableEq

/-- SessionService.create_session (session_service.py lines 23-57). -/
def create_session (db : DB) (data : SessionCreate) (created_by : Nat) :
    Except Err (SessionModel × DB) :=
  match getClass db data.class_id with
  | none => Except.error Err.NotFound
  | some _ =>
    if check_scheduling_conflicts db data.start_time data.end_time
        data.location none ≠ [] then
      Except.error Err.SchedulingConflict
    else
      let s : SessionModel :=
        { id := db.next_session_id, class_id := data.class_id,
          start_time := data.start_time, end_time := data.end_time,
          location := data.location, special_notes := data.special_notes,
          status := SessionStatus.SCHEDULED, created_by := created_by,
          updated_at := none }
      Except.ok (s, { db with
        sessions := db.sessions ++ [s],
        next_session_id := db.next_session_id + 1 })

/-- SessionUpdate patch, from src/src/schemas/session.py: an outer `none`
means the field was not set in the patch (pydantic `exclude_unset`). -/
structure SessionUpdate where
  start_time : Option Int := none
  end_time : Option Int := none
  location : Option (Option String) := none
  special_notes : Option (Option String) := none
  status : Option SessionStatus := none
deriving DecidableEq

/-- Attribute read of a doubly-optional patch field: an unset field reads as
`None`, exactly like a field explicitly set to `None`. -/
def attrStr : Option (Option String) → Option String
  | none => none
  | some v => v

/-- Python `a or b` on optional strings: `a` unless it is falsy (`None` or
`""`). -/
def pyOrStr (a b : Option String) : Option String :=
  if pyTruthyStr a then a else b

/-- The `setattr` loop of update_session over `dict(exclude_unset=True)`,
followed by the update-timestamp stamp. -/
def apply_session_update (s : SessionModel) (patch : SessionUpdate) (now : Int) :
    SessionModel :=
  { s with
    start_time := patch.start_time.getD s.start_time,
    end_time := patch.end_time.getD s.end_time,
    location := match patch.location with | none => s.location | some v => v,
    special_notes := match patch.special_notes with
      | none => s.special_notes
      | some v => v,
    status := patch.status.getD s.status,
    updated_at := some now }

/-- SessionService.update_session (session_service.py lines 128-157): the
conflict check runs only under `if session_data.start_time or
session_data.end_time` (datetimes are always truthy, so this is exactly
"start or end was patched"); the checked values are the patched ones merged
with the existing ones by Python `or`. -/
def update_session (db : DB) (now : Int) (session_id : Nat) (patch : SessionUpdate) :
    Except Err (Option (SessionModel × DB)) :=
  match getSession db session_id with
  | none => Except.ok none
  | some session =>
    if patch.start_time.isSome || patch.end_time.isSome then
      let st := patch.start_time.getD session.start_time
      let en := patch.end_time.getD session.end_time
      let loc := pyOrStr (attrStr patch.location) session.location
      if check_scheduling_conflicts db st en loc (some session_id) ≠ [] then
        Except.error Err.SchedulingConflict
      else
        let s' := apply_session_update session patch now
        Except.ok (some (s', setSession db s'))
    else
      let s' := apply_session_update session patch now
      Except.ok (some (s', setSession db s'))

/-- The f-string `f"{session.special_notes or ''}\nCancelled: {reason or 'No reason provided'}"`. -/
def cancelNote (special_notes reason : Option String) : String :=
  special_notes.getD "" ++ "\nCancelled: " ++
    (if pyTruthyStr reason then reason.getD "" else "No reason provided")

/-- SessionService.cancel_session (session_service.py lines 159-185): returns
`false` on an unknown id; otherwise unconditionally sets the session
CANCELLED, appends the cancellation note, stamps the timestamp, and cascades
CANCELLED onto every PENDING/CONFIRMED booking of the session. -/
def cancel_session (db : DB) (now : Int) (session_id : Nat) (reason : Option String) :
    Bool × DB :=
  match getSession db session_id with
  | none => (false, db)
  | some session =>
    let s' : SessionModel :=
      { session with
        status := SessionStatus.CANCELLED,
        special_notes := some (cancelNote session.special_notes reason),
        updated_at := some now }
    let db' := setSession db s'
    (true, { db' with bookings := db'.bookings.map (fun b =>
      if b.session_id == session_id && isActiveStatus b.status then
        { b with status := BookingStatus.CANCELLED, updated_at := some now }
      else b) })

/-! ### Spec-side definitions (for refinement-style claims)

These follow the claims' words, not the code, and are compared against the
embedded operations by the theorems below. -/

/-- Conflict existence as claim C3 words it: some existing SCHEDULED/ONGOING
session overlaps the requested half-open range `[st, en)` and the location
comparison is applied only when both sessions specify a location (when either
side specifies none, time overlap alone conflicts). -/
def claimedConflictExists (db : DB) (st en : Int) (loc : Option String) : Bool :=
  db.sessions.any (fun s =>
    isActiveSessionStatus s.status &&
    decide (s.start_time < en) && decide (st < s.end_time) &&
    (match loc, s.location with
     | some a, some b => a == b
     | _, _ => true))

/-- Conflict existence as claim C4 words it for updateSession: the C3 rule
re-run against all sessions other than the updated one, with the merged
values. -/
def claimedUpdateConflict (db : DB) (sid : Nat) (st en : Int)
    (loc : Option String) : Bool :=
  db.sessions.any (fun s =>
    s.id != sid &&
    isActiveSessionStatus s.status &&
    decide (s.start_time < en) && decide (st < s.end_time) &&
    (match loc, s.location with
     | some a, some b => a == b
     | _, _ => true))

/-- The derived capacity invariant of claim C1: every session's active
booking count is at most its class's max_capacity. -/
def capacityInvariant (db : DB) : Prop :=
  ∀ s ∈ db.sessions, ∀ c ∈ db.classes, getClass db s.class_id = some c →
    get_session_booking_count db s.id ≤ c.max_capacity

instance capacityInvariantDecidable (db : DB) : Decidable (capacityInvariant db) := by
  unfold capacityInvariant
  exact inferInstance

/-- An active (PENDING/CONFIRMED) booking already exists for
(userId, sessionId) — the spec's DuplicateBooking condition. -/
def hasActiveBookingFor (db : DB) (uid sid : Nat) : Prop :=
  ∃ b ∈ db.bookings, b.user_id = uid ∧ b.session_id = sid ∧
    isActiveStatus b.status = true

instance hasActiveBookingForDecidable (db : DB) (uid sid : Nat) :
    Decidable (hasActiveBookingFor db uid sid) := by
  unfold hasActiveBookingFor
  exact inferInstance

/-! ### Concrete fixtures used by counterexamples, scenarios and witnesses -/

/-- Class with capacity 1 (claim C1's scenario). -/
def cls1 : Class := { id := 1, max_capacity := 1 }

/-- Class with capacity 5. -/
def cls5 : Class := { id := 1, max_capacity := 5 }

/-- Session of `cls1` starting at time 1000 (more than 4 hours ahead of
time 0). -/
def sessA : SessionModel :=
  { id := 1, class_id := 1, start_time := 1000, end_time := 1060,
    location := none, special_notes := none,
    status := SessionStatus.SCHEDULED, created_by := 9, updated_at := none }

/-- C1 initial store: capacity-1 class, one scheduled session, no bookings. -/
def c1db0 : DB :=
  { classes := [cls1], sessions := [sessA], bookings := [],
    next_session_id := 2, next_booking_id := 1 }

/-- User 10's booking created at time 0. -/
def c1b1 : Booking :=
  { id := 1, user_id := 10, session_id := 1, status := BookingStatus.PENDING,
    booking_date := 0, notes := none, admin_notes := none, updated_at := none }

/-- Store after user 10 books. -/
def c1db1 : DB := { c1db0 with bookings := [c1b1], next_booking_id := 2 }

/-- User 10's booking after cancellation at time 0. -/
def c1b1c : Booking :=
  { c1b1 with status := BookingStatus.CANCELLED, updated_at := some 0 }

/-- Store after user 10 cancels. -/
def c1db2 : DB := { c1db1 with bookings := [c1b1c] }

/-- User 20's booking created at time 0 after the slot freed up. -/
def c1b2 : Booking :=
  { id := 2, user_id := 20, session_id := 1, status := BookingStatus.PENDING,
    booking_date := 0, notes := none, admin_notes := none, updated_at := none }

/-- Store after user 20 books the freed slot. -/
def c1db3 : DB := { c1db2 with bookings := [c1b1c, c1b2], next_booking_id := 3 }

/-- Administrative patch that overwrites a booking's status back to PENDING. -/
def c1patch : BookingUpdate := { status := some BookingStatus.PENDING }

/-- User 10's cancelled booking resurrected to PENDING by update_booking. -/
def c1b1r : Booking := { c1b1 with updated_at := some 0 }

/-- Store in which session 1 holds two active bookings against capacity 1. -/
def c1db4 : DB := { c1db3 with bookings := [c1b1r, c1b2] }

/-- Session with no location, scheduled over `[0, 100)`. -/
def c3sess : SessionModel :=
  { id := 1, class_id := 1, start_time := 0, end_time := 100,
    location := none, special_notes := none,
    status := SessionStatus.SCHEDULED, created_by := 9, updated_at := none }

/-- C3 store: capacity-5 class and the location-less session. -/
def c3db : DB :=
  { classes := [cls5], sessions := [c3sess], bookings := [],
    next_session_id := 2, next_booking_id := 1 }

/-- Request for a session over the same range at location "A". -/
def c3data : SessionCreate :=
  { class_id := 1, start_time := 0, end_time := 100, location := some "A" }

/-- The session the code persists for `c3data`. -/
def c3new : SessionModel :=
  { id := 2, class_id := 1, start_time := 0, end_time := 100,
    location := some "A", special_notes := none,
    status := SessionStatus.SCHEDULED, created_by := 9, updated_at := none }

/-- Store after the code persists `c3new`. -/
def c3dbB : DB := { c3db with sessions := [c3sess, c3new], next_session_id := 3 }

/-- Request with no location overlapping `c3sess` (C3 witness input). -/
def c3dataB : SessionCreate :=
  { class_id := 1, start_time := 50, end_time := 150, location := none }

/-- Session 1 at location "X" over `[0, 100)`. -/
def c4s1 : SessionModel :=
  { id := 1, class_id := 1, start_time := 0, end_time := 100,
    location := some "X", special_notes := none,
    status := SessionStatus.SCHEDULED, created_by := 9, updated_at := none }

/-- Session 2 at location "Y" over the same range. -/
def c4s2 : SessionModel :=
  { id := 2, class_id := 1, start_time := 0, end_time := 100,
    location := some "Y", special_notes := none,
    status := SessionStatus.SCHEDULED, created_by := 9, updated_at := none }

/-- C4 store: two same-time sessions at different locations. -/
def c4db : DB :=
  { classes := [cls5], sessions := [c4s1, c4s2], bookings := [],
    next_session_id := 3, next_booking_id := 1 }

/-- Location-only patch moving session 2 to "X". -/
def c4patch : SessionUpdate := { location := some (some "X") }

/-- Session 2 after the location-only patch at time 7. -/
def c4s2x : SessionModel := { c4s2 with location := some "X", updated_at := some 7 }

/-- Store after the unchecked location-only update. -/
def c4dbB : DB := { c4db with sessions := [c4s1, c4s2x] }

/-- Patch that re-sets session 2's unchanged start time (C4 witness input). -/
def c4patchB : SessionUpdate := { start_time := some 0 }

/-- Session 2 after `c4patchB` at time 7. -/
def c4s2y : SessionModel := { c4s2 with updated_at := some 7 }

/-- Store after applying `c4patchB`. -/
def c4dbC : DB := { c4db with sessions := [c4s1, c4s2y] }

/-- Store after cancelling session 1 of `c3db` once with reason "rain". -/
def c6db1 : DB := (cancel_session c3db 5 1 (some "rain")).2

/-- Store after cancelling the same session a second time, identically. -/
def c6db2 : DB := (cancel_session c6db1 5 1 (some "rain")).2

/-- A booking already in the terminal state COMPLETED. -/
def c7bk : Booking :=
  { id := 1, user_id := 10, session_id := 1, status := BookingStatus.COMPLETED,
    booking_date := 0, notes := none, admin_notes := none, updated_at := none }

/-- C7 store: the COMPLETED booking on the location-less session. -/
def c7db : DB := { c3db with bookings := [c7bk] }

/-- The terminal booking after the administrative cancel at time 500. -/
def c7bkB : Booking :=
  { c7bk with status := BookingStatus.CANCELLED, updated_at := some 500 }

/-- Store after the administrative cancel of the COMPLETED booking. -/
def c7dbB : DB := { c7db with bookings := [c7bkB] }

/-- A PENDING booking owned by user 10. -/
def c8bk : Booking :=
  { id := 1, user_id := 10, session_id := 1, status := BookingStatus.PENDING,
    booking_date := 0, notes := none, admin_notes := none, updated_at := none }

/-- C8 store: the PENDING booking on the session starting at time 0. -/
def c8db : DB := { c3db with bookings := [c8bk] }

/-- The booking after cancellation at time 500 (past the 4-hour deadline). -/
def c8bkB : Booking :=
  { c8bk with status := BookingStatus.CANCELLED, updated_at := some 500 }

/-- Store after the cancellation with acting user id 0. -/
def c8dbB : DB := { c8db with bookings := [c8bkB] }

/-! ### Helper lemmas -/

theorem isActiveStatus_iff (s : BookingStatus) :
    isActiveStatus s = true ↔
      (s = BookingStatus.PENDING ∨ s = BookingStatus.CONFIRMED) := by
  cases s <;> decide

theorem isActiveSessionStatus_iff (st : SessionStatus) :
    isActiveSessionStatus st = true ↔
      (st = SessionStatus.SCHEDULED ∨ st = SessionStatus.ONGOING) := by
  cases st <;> decide

theorem overlapsSQL_iff (s : SessionModel) (st en : Int)
    (h1 : s.start_time < s.end_time) (h2 : st < en) :
    overlapsSQL s st en = true ↔ (s.start_time < en ∧ st < s.end_time) := by
  simp only [overlapsSQL, Bool.or_eq_true, Bool.and_eq_true, decide_eq_true_eq]
  omega

theorem filter_ne_nil_iff {α : Type} (p : α → Bool) (l : List α) :
    l.filter p ≠ [] ↔ ∃ a ∈ l, p a = true := by
  rw [Ne, List.filter_eq_nil_iff]
  push_neg
  simp

theorem find?_map_ite {α : Type} (p : α → Bool) (a' : α) (l : List α) (old : α)
    (hfind : l.find? p = some old) (hp : p a' = true) :
    (l.map (fun x => if p x then a' else x)).find? p = some a' := by
  induction l with
  | nil => simp at hfind
  | cons h t ih =>
    rw [List.map_cons]
    by_cases hh : p h = true
    · rw [if_pos hh]
      exact List.find?_cons_of_pos _ hp
    · rw [if_neg (by simp [hh]), List.find?_cons_of_neg _ (by simp [hh])]
      rw [List.find?_cons_of_neg _ (by simp [hh])] at hfind
      exact ih hfind

theorem getSession_setSession (db : DB) (sid : Nat) (s2 old : SessionModel)
    (h : getSession db sid = some old) (hid : s2.id = sid) :
    getSession (setSession db s2) sid = some s2 := by
  unfold getSession setSession at *
  simp only [hid]
  exact find?_map_ite _ _ _ _ h (by simp [hid])

theorem getBooking_setBooking (db : DB) (bid : Nat) (b2 old : Booking)
    (h : getBooking db bid = some old) (hid : b2.id = bid) :
    getBooking (setBooking db b2) bid = some b2 := by
  unfold getBooking setBooking at *
  simp only [hid]
  exact find?_map_ite _ _ _ _ h (by simp [hid])

theorem count_bookings_append (db1 db2 : DB) (b : Booking) (sid : Nat)
    (h : db2.bookings = db1.bookings ++ [b]) :
    get_session_booking_count db2 sid =
      get_session_booking_count db1 sid +
        (if b.session_id == sid && isActiveStatus b.status then 1 else 0) := by
  unfold get_session_booking_count
  rw [h, List.filter_append, List.length_append]
  congr 1
  by_cases hb : (b.session_id == sid && isActiveStatus b.status) = true
  · simp [List.filter_cons, hb]
  · simp [List.filter_cons, hb]

/-! ### Claim theorems -/

/-- C9: computeStats over the bookings whose creation time lies in the
optional date window returns completion_rate = completed/total*100 and
no_show_rate = no_shows/total*100, and both rates are 0 (not an error) when
the total is 0. -/
theorem c9_compute_stats_rates (db : DB) (sd ed : Option Int) :
    let inWindow := db.bookings.filter (fun b =>
      (match sd with | none => true | some d => decide (d ≤ b.booking_date)) &&
      (match ed with | none => true | some d => decide (b.booking_date ≤ d)))
    let total := inWindow.length
    let completed :=
      (inWindow.filter (fun b => b.status == BookingStatus.COMPLETED)).length
    let noShows :=
      (inWindow.filter (fun b => b.status == BookingStatus.NO_SHOW)).length
    (get_booking_stats db sd ed).total_bookings = total ∧
    (get_booking_stats db sd ed).completion_rate =
      (if total = 0 then 0 else (completed : ℚ) / (total : ℚ) * 100) ∧
    (get_booking_stats db sd ed).no_show_rate =
      (if total = 0 then 0 else (noShows : ℚ) / (total : ℚ) * 100) := by
  refine ⟨rfl, ?_, ?_⟩ <;>
  · simp only [get_booking_stats]
    split_ifs with h1 h2 <;> first | rfl | omega

/-- C10: for cancelBooking and updateBooking, an actingUserId equal to 0 is
treated the same as an absent actingUserId (the administrative path): the
ownership check that raises Forbidden is skipped, and for cancelBooking the
4-hour cancellation-deadline check is also skipped, because presence of the
acting user is tested by truthiness rather than by an explicit absence
check. -/
theorem c10_zero_acting_id_is_admin (db : DB) (now : Int) (bid : Nat)
    (reason : Option String) (patch : BookingUpdate) :
    cancel_booking db now bid (some 0) reason = cancel_booking db now bid none reason ∧
    update_booking db now bid patch (some 0) = update_booking db now bid patch none := by
  constructor
  · unfold cancel_booking
    cases hb : getBooking db bid with
    | none => rfl
    | some booking =>
      cases hs : getSession db booking.session_id with
      | none => simp [ownershipViolation, pyTruthyId]
      | some session => simp [ownershipViolation, pyTruthyId]
  · unfold update_booking
    cases hb : getBooking db bid with
    | none => rfl
    | some booking => simp [ownershipViolation, pyTruthyId]

/-- C5: cancelSession(id) transitions every booking on that session whose
status is PENDING or CONFIRMED to CANCELLED with the update timestamp
stamped, unconditionally (for every `now`, no deadline check applies), while
bookings in COMPLETED, NO_SHOW, or CANCELLED keep their record (all fields)
unchanged. -/
theorem c5_cancel_session_cascade (db : DB) (now : Int) (sid : Nat)
    (reason : Option String) (s : SessionModel) (h : getSession db sid = some s) :
    (cancel_session db now sid reason).1 = true ∧
    (cancel_session db now sid reason).2.bookings.length = db.bookings.length ∧
    ∀ b ∈ db.bookings,
      (b.session_id = sid ∧
          (b.status = BookingStatus.PENDING ∨ b.status = BookingStatus.CONFIRMED) →
        { b with status := BookingStatus.CANCELLED, updated_at := some now } ∈
          (cancel_session db now sid reason).2.bookings) ∧
      (¬(b.session_id = sid ∧
          (b.status = BookingStatus.PENDING ∨ b.status = BookingStatus.CONFIRMED)) →
        b ∈ (cancel_session db now sid reason).2.bookings) := by
  unfold cancel_session
  rw [h]
  simp only [setSession]
  refine ⟨by trivial, by simp, ?_⟩
  intro b hb
  constructor
  · rintro ⟨hsid, hact⟩
    have hcond : (b.session_id == sid && isActiveStatus b.status) = true := by
      simp [hsid, isActiveStatus_iff, hact]
    have hm := List.mem_map_of_mem (fun b =>
      if b.session_id == sid && isActiveStatus b.status then
        { b with status := BookingStatus.CANCELLED, updated_at := some now }
      else b) hb
    simpa [hcond] using hm
  · intro hn
    have hcond : (b.session_id == sid && isActiveStatus b.status) = false := by
      by_contra hc
      have : (b.session_id == sid && isActiveStatus b.status) = true := by
        revert hc
        cases b.session_id == sid && isActiveStatus b.status <;> simp
      simp only [Bool.and_eq_true, beq_iff_eq, isActiveStatus_iff] at this
      exact hn this
    have hm := List.mem_map_of_mem (fun b =>
      if b.session_id == sid && isActiveStatus b.status then
        { b with status := BookingStatus.CANCELLED, updated_at := some now }
      else b) hb
    simpa [hcond] using hm

/-- C5 witness: the cascade theorem applied to the concrete store `c1db1`. -/
theorem c5_witness : (cancel_session c1db1 77 1 none).1 = true :=
  (c5_cancel_session_cascade c1db1 77 1 none sessA (by decide)).1

theorem ownershipViolation_iff (acting : Option Nat) (owner : Nat) :
    ownershipViolation acting owner = true ↔
      pyTruthyId acting = true ∧ acting.getD 0 ≠ owner := by
  simp [ownershipViolation]

/-- Effect of one cancel_session call on the session row it targets. -/
theorem cancel_session_found (db : DB) (now : Int) (sid : Nat)
    (reason : Option String) (s : SessionModel) (h : getSession db sid = some s) :
    (cancel_session db now sid reason).1 = true ∧
    getSession (cancel_session db now sid reason).2 sid = some
      { s with
        status := SessionStatus.CANCELLED,
        special_notes := some (cancelNote s.special_notes reason),
        updated_at := some now } := by
  have hid : s.id = sid := by
    have hf := List.find?_some h
    simpa using hf
  unfold cancel_session
  rw [h]
  refine ⟨rfl, ?_⟩
  have hset := getSession_setSession db sid
    { s with
      status := SessionStatus.CANCELLED,
      special_notes := some (cancelNote s.special_notes reason),
      updated_at := some now } s h (by simpa using hid)
  simpa [getSession, setSession] using hset

/-- C6 counterexample: cancelling session 1 of `c3db` twice with the same
reason appends the cancellation note twice — the observable notes after the
second call differ from the notes after the first call, contradicting the
claim that a repeat cancelSession does not double-append. -/
theorem c6_counterexample :
    (getSession c6db1 1).map (fun s => s.special_notes) =
      some (some "\nCancelled: rain") ∧
    (getSession c6db2 1).map (fun s => s.special_notes) =
      some (some "\nCancelled: rain\nCancelled: rain") ∧
    (getSession c6db2 1).map (fun s => s.special_notes) ≠
      (getSession c6db1 1).map (fun s => s.special_notes) :=
  ⟨by decide, by decide, by decide⟩

/-- C6 amended: recancelling an already-CANCELLED session is permitted as a
status re-set, but the cancellation reason note is appended again on every
call: after a second identical cancelSession the session's observable notes
equal the notes after the first call with "\nCancelled: reason" appended
once more (and the update timestamp is restamped). -/
theorem c6_amended (db : DB) (now now2 : Int) (sid : Nat)
    (reason : Option String) (s1 : SessionModel)
    (h1 : getSession db sid = some s1) :
    (cancel_session db now sid reason).1 = true ∧
    getSession (cancel_session db now sid reason).2 sid = some
      { s1 with
        status := SessionStatus.CANCELLED,
        special_notes := some (cancelNote s1.special_notes reason),
        updated_at := some now } ∧
    (cancel_session (cancel_session db now sid reason).2 now2 sid reason).1 = true ∧
    getSession (cancel_session (cancel_session db now sid reason).2 now2 sid reason).2 sid =
      some { s1 with
        status := SessionStatus.CANCELLED,
        special_notes := some (cancelNote
          (some (cancelNote s1.special_notes reason)) reason),
        updated_at := some now2 } := by
  obtain ⟨r1, g1⟩ := cancel_session_found db now sid reason s1 h1
  obtain ⟨r2, g2⟩ := cancel_session_found (cancel_session db now sid reason).2
    now2 sid reason _ g1
  exact ⟨r1, g1, r2, g2⟩

/-- C6 witness: the amended theorem applied to the concrete store `c3db`,
exhibiting the doubled note after the second call. -/
theorem c6_witness :
    getSession (cancel_session (cancel_session c3db 5 1 (some "rain")).2
        5 1 (some "rain")).2 1 =
      some { c3sess with
        status := SessionStatus.CANCELLED,
        special_notes := some (cancelNote
          (some (cancelNote c3sess.special_notes (some "rain"))) (some "rain")),
        updated_at := some 5 } :=
  (c6_amended c3db 5 5 1 (some "rain") c3sess (by decide)).2.2.2

/-- C7 counterexample: booking 1 of `c7db` is in the terminal state
COMPLETED, yet an administrative cancelBooking call changes its status to
CANCELLED — contradicting the claim that no operation changes the status of
a terminal booking. -/
theorem c7_counterexample :
    (getBooking c7db 1).map (fun b => b.status) = some BookingStatus.COMPLETED ∧
    cancel_booking c7db 500 1 none none = some (Except.ok (true, c7dbB)) ∧
    (getBooking c7dbB 1).map (fun b => b.status) = some BookingStatus.CANCELLED :=
  ⟨by decide, rfl, by decide⟩

/-- C7 amended: terminal booking states are not enforced by the code: an
administrative updateBooking overwrites a terminal booking's status with any
patched status; an administrative cancelBooking sets a terminal booking to
CANCELLED; markAttendance on a terminal booking of a started session sets
COMPLETED or NO_SHOW; only confirmBooking guards the state machine,
rejecting every non-PENDING (in particular every terminal) booking with
InvalidTransition. -/
theorem c7_amended (db : DB) (now : Int) (bid : Nat) (b : Booking)
    (hb : getBooking db bid = some b)
    (hterm : b.status = BookingStatus.CANCELLED ∨
      b.status = BookingStatus.COMPLETED ∨ b.status = BookingStatus.NO_SHOW)
    (session : SessionModel) (hs : getSession db b.session_id = some session) :
    (∀ st : BookingStatus,
      update_booking db now bid { status := some st } none =
        Except.ok (some ({ b with
            status := st, updated_at := some now },
          setBooking db { b with status := st, updated_at := some now }))) ∧
    cancel_booking db now bid none none =
      some (Except.ok (true, setBooking db
        { b with status := BookingStatus.CANCELLED, updated_at := some now })) ∧
    (session.start_time ≤ now →
      mark_attendance db now bid true =
        some (Except.ok (true, setBooking db
          { b with status := BookingStatus.COMPLETED, updated_at := some now })) ∧
      mark_attendance db now bid false =
        some (Except.ok (true, setBooking db
          { b with status := BookingStatus.NO_SHOW, updated_at := some now }))) ∧
    confirm_booking db now bid = Except.error Err.InvalidTransition := by
  refine ⟨?_, ?_, ?_, ?_⟩
  · intro st
    unfold update_booking
    rw [hb]
    simp [ownershipViolation, pyTruthyId, apply_booking_update]
  · unfold cancel_booking
    simp only [hb, hs]
    simp [ownershipViolation, pyTruthyId, pyTruthyStr]
  · intro hstarted
    unfold mark_attendance
    simp only [hb, hs]
    refine ⟨?_, ?_⟩ <;> · rw [if_neg (by omega)]; rfl
  · unfold confirm_booking
    rw [hb]
    rcases hterm with h | h | h <;> simp [h]

/-- C7 witness: the amended theorem applied to the COMPLETED booking of
`c7db`: confirmBooking is the one guarded operation. -/
theorem c7_witness :
    confirm_booking c7db 500 1 = Except.error Err.InvalidTransition :=
  (c7_amended c7db 500 1 c7bk (by decide) (by decide) c3sess (by decide)).2.2.2

/-- C8 counterexample: acting user id 0 is supplied and differs from the
booking's owner (user 10), and the call happens after the 4-hour
cancellation deadline of the session starting at time 0 — the claim demands
Forbidden (ownership mismatch) and DeadlinePassed, yet the code cancels
successfully because `if user_id:` treats 0 as absent. -/
theorem c8_counterexample :
    cancel_booking c8db 500 1 (some 0) none = some (Except.ok (true, c8dbB)) ∧
    c8bk.user_id = 10 ∧
    (500 : Int) > c3sess.start_time - cancellationDeadlineMinutes :=
  ⟨rfl, rfl, by decide⟩

/-- C8 amended: cancelBooking fails with Forbidden exactly when the acting
user id is supplied, nonzero, and differs from the booking's owner; it fails
with DeadlinePassed exactly when the ownership check passes, now is past
session.start_time minus 4 hours, and the acting id is supplied and nonzero
(an absent — or zero — acting id is the administrative path and bypasses the
deadline); on success the status becomes CANCELLED and the update timestamp
is stamped, with a non-empty reason appended to the admin notes and the
notes left unchanged otherwise. -/
theorem c8_amended (db : DB) (now : Int) (bid : Nat) (acting : Option Nat)
    (reason : Option String) (b : Booking) (hb : getBooking db bid = some b)
    (session : SessionModel) (hs : getSession db b.session_id = some session) :
    (cancel_booking db now bid acting reason = some (Except.error Err.Forbidden) ↔
      pyTruthyId acting = true ∧ acting.getD 0 ≠ b.user_id) ∧
    (cancel_booking db now bid acting reason = some (Except.error Err.DeadlinePassed) ↔
      ¬(pyTruthyId acting = true ∧ acting.getD 0 ≠ b.user_id) ∧
      now > session.start_time - cancellationDeadlineMinutes ∧
      pyTruthyId acting = true) ∧
    (¬(pyTruthyId acting = true ∧ acting.getD 0 ≠ b.user_id) →
      ¬(now > session.start_time - cancellationDeadlineMinutes ∧
          pyTruthyId acting = true) →
      (pyTruthyStr reason = true →
        cancel_booking db now bid acting reason = some (Except.ok (true,
          setBooking db { b with
            status := BookingStatus.CANCELLED,
            updated_at := some now,
            admin_notes := some (appendCancellationReason b.admin_notes
              (reason.getD "")) }))) ∧
      (pyTruthyStr reason = false →
        cancel_booking db now bid acting reason = some (Except.ok (true,
          setBooking db { b with
            status := BookingStatus.CANCELLED,
            updated_at := some now })))) := by
  unfold cancel_booking
  simp only [hb, hs]
  by_cases hown : ownershipViolation acting b.user_id = true
  · rw [if_pos hown]
    have hiff := (ownershipViolation_iff acting b.user_id).mp hown
    refine ⟨by simp [hiff], by simp [hiff], ?_⟩
    intro hno
    exact absurd hiff hno
  · rw [if_neg hown]
    have hniff : ¬(pyTruthyId acting = true ∧ acting.getD 0 ≠ b.user_id) := by
      intro hc
      exact hown ((ownershipViolation_iff acting b.user_id).mpr hc)
    by_cases hdl : now > session.start_time - cancellationDeadlineMinutes ∧
        pyTruthyId acting = true
    · rw [if_pos hdl]
      refine ⟨by simp [hniff], ⟨fun _ => ⟨hniff, hdl.1, hdl.2⟩, fun _ => rfl⟩, ?_⟩
      intro _ hc
      exact absurd hdl hc
    · rw [if_neg hdl]
      refine ⟨?_, ?_, ?_⟩
      · constructor
        · intro hc
          simp at hc
        · intro hc
          exact absurd hc hniff
      · constructor
        · intro hc
          simp at hc
        · intro hc
          exact absurd ⟨hc.2.1, hc.2.2⟩ hdl
      · intro _ _
        constructor
        · intro hre
          simp [hre]
        · intro hre
          simp [hre]

/-- C8 witness: the amended Forbidden direction applied to a concrete
nonzero non-owner acting id. -/
theorem c8_witness :
    cancel_booking c8db 500 1 (some 99) none = some (Except.error Err.Forbidden) :=
  (c8_amended c8db 500 1 (some 99) none c8bk (by decide) c3sess (by decide)).1.mpr
    (by decide)

/-- Characterization of a non-empty conflict list for create_session (no
exclusion id): with well-formed intervals the SQL overlap disjunction is the
half-open overlap rule, and the location filter fires only for a truthy
requested location. -/
theorem check_conflicts_none_iff (db : DB) (st en : Int) (loc : Option String)
    (hwf : ∀ s ∈ db.sessions, s.start_time < s.end_time) (hr : st < en) :
    check_scheduling_conflicts db st en loc none ≠ [] ↔
      ∃ s ∈ db.sessions,
        (s.status = SessionStatus.SCHEDULED ∨ s.status = SessionStatus.ONGOING) ∧
        s.start_time < en ∧ st < s.end_time ∧
        (pyTruthyStr loc = true → s.location = loc) := by
  rw [check_scheduling_conflicts, filter_ne_nil_iff]
  constructor
  · rintro ⟨s, hs, hp⟩
    simp only [Bool.and_eq_true] at hp
    obtain ⟨⟨⟨hact, hov⟩, hloc⟩, -⟩ := hp
    have hov2 := (overlapsSQL_iff s st en (hwf s hs) hr).mp hov
    refine ⟨s, hs, (isActiveSessionStatus_iff s.status).mp hact, hov2.1, hov2.2, ?_⟩
    intro htr
    simpa [htr] using hloc
  · rintro ⟨s, hs, hact, h1, h2, hloc⟩
    refine ⟨s, hs, ?_⟩
    simp only [Bool.and_eq_true]
    refine ⟨⟨⟨(isActiveSessionStatus_iff s.status).mpr hact,
      (overlapsSQL_iff s st en (hwf s hs) hr).mpr ⟨h1, h2⟩⟩, ?_⟩, ?_⟩
    · cases htr : pyTruthyStr loc with
      | false => simp
      | true => simp [hloc htr]
    · simp [pyTruthyId]

/-- Characterization of a non-empty conflict list for update_session (with a
truthy exclusion id): as above plus the self-exclusion. -/
theorem check_conflicts_exclude_iff (db : DB) (st en : Int) (loc : Option String)
    (sid : Nat) (hsid : sid ≠ 0)
    (hwf : ∀ s ∈ db.sessions, s.start_time < s.end_time) (hr : st < en) :
    check_scheduling_conflicts db st en loc (some sid) ≠ [] ↔
      ∃ s ∈ db.sessions, s.id ≠ sid ∧
        (s.status = SessionStatus.SCHEDULED ∨ s.status = SessionStatus.ONGOING) ∧
        s.start_time < en ∧ st < s.end_time ∧
        (pyTruthyStr loc = true → s.location = loc) := by
  rw [check_scheduling_conflicts, filter_ne_nil_iff]
  constructor
  · rintro ⟨s, hs, hp⟩
    simp only [Bool.and_eq_true] at hp
    obtain ⟨⟨⟨hact, hov⟩, hloc⟩, hexc⟩ := hp
    have hov2 := (overlapsSQL_iff s st en (hwf s hs) hr).mp hov
    refine ⟨s, hs, ?_, (isActiveSessionStatus_iff s.status).mp hact,
      hov2.1, hov2.2, ?_⟩
    · simpa [pyTruthyId, hsid] using hexc
    · intro htr
      simpa [htr] using hloc
  · rintro ⟨s, hs, hne, hact, h1, h2, hloc⟩
    refine ⟨s, hs, ?_⟩
    simp only [Bool.and_eq_true]
    refine ⟨⟨⟨(isActiveSessionStatus_iff s.status).mpr hact,
      (overlapsSQL_iff s st en (hwf s hs) hr).mpr ⟨h1, h2⟩⟩, ?_⟩, ?_⟩
    · cases htr : pyTruthyStr loc with
      | false => simp
      | true => simp [hloc htr]
    · simp [pyTruthyId, hsid, hne]

/-- C3 counterexample: the existing session `c3sess` has no location and
overlaps the requested range exactly, so under the claim's rule (location
comparison applied only when both sessions specify a location) the request at
location "A" must fail with SchedulingConflict — yet the code persists the
new session, because its filter `SessionModel.location == "A"` silently
drops NULL-location rows. -/
theorem c3_counterexample :
    claimedConflictExists c3db c3data.start_time c3data.end_time
      c3data.location = true ∧
    c3data.end_time > c3data.start_time ∧
    create_session c3db c3data 9 = Except.ok (c3new, c3dbB) ∧
    c3new.status = SessionStatus.SCHEDULED :=
  ⟨by decide, by decide, rfl, rfl⟩

/-- C3 amended: createSession fails with NotFound when the class is missing,
and otherwise fails with SchedulingConflict exactly when some existing
SCHEDULED/ONGOING session overlaps the requested half-open range and — only
when the requested location is a non-empty string — has exactly that
location (an existing session with no location never matches the location
filter, and a request without a location conflicts with every overlapping
active session regardless of location); otherwise it persists a new session
with status SCHEDULED. -/
theorem c3_amended (db : DB) (data : SessionCreate) (created_by : Nat)
    (hwf : ∀ s ∈ db.sessions, s.start_time < s.end_time)
    (hrange : data.start_time < data.end_time) :
    (create_session db data created_by = Except.error Err.NotFound ↔
      getClass db data.class_id = none) ∧
    (create_session db data created_by = Except.error Err.SchedulingConflict ↔
      getClass db data.class_id ≠ none ∧
      ∃ s ∈ db.sessions,
        (s.status = SessionStatus.SCHEDULED ∨ s.status = SessionStatus.ONGOING) ∧
        s.start_time < data.end_time ∧ data.start_time < s.end_time ∧
        (pyTruthyStr data.location = true → s.location = data.location)) ∧
    (getClass db data.class_id ≠ none →
      ¬(∃ s ∈ db.sessions,
        (s.status = SessionStatus.SCHEDULED ∨ s.status = SessionStatus.ONGOING) ∧
        s.start_time < data.end_time ∧ data.start_time < s.end_time ∧
        (pyTruthyStr data.location = true → s.location = data.location)) →
      ∃ newS db2, create_session db data created_by = Except.ok (newS, db2) ∧
        newS.status = SessionStatus.SCHEDULED ∧
        db2.sessions = db.sessions ++ [newS]) := by
  unfold create_session
  cases hcls : getClass db data.class_id with
  | none => simp [hcls]
  | some cls =>
    by_cases hc : check_scheduling_conflicts db data.start_time data.end_time
        data.location none ≠ []
    · rw [if_pos hc]
      have hex := (check_conflicts_none_iff db data.start_time data.end_time
        data.location hwf hrange).mp hc
      refine ⟨by simp [hcls], ⟨fun _ => ⟨by simp [hcls], hex⟩, fun _ => rfl⟩, ?_⟩
      intro _ hnex
      exact absurd hex hnex
    · rw [if_neg hc]
      refine ⟨by simp [hcls], ?_, ?_⟩
      · constructor
        · intro habs
          simp at habs
        · rintro ⟨-, hex⟩
          exact absurd ((check_conflicts_none_iff db data.start_time
            data.end_time data.location hwf hrange).mpr hex) hc
      · intro _ _
        exact ⟨_, _, rfl, rfl, rfl⟩

/-- C3 witness: the amended conflict characterization applied to a concrete
overlapping location-less request. -/
theorem c3_witness :
    create_session c3db c3dataB 9 = Except.error Err.SchedulingConflict :=
  (c3_amended c3db c3dataB 9 (by decide) (by decide)).2.1.mpr
    ⟨by decide, c3sess, by decide, by decide, by decide, by decide, by decide⟩

/-- C4 counterexample: the patch `c4patch` changes only the location of
session 2, moving it to "X" where session 1 already sits over the identical
time range — under the claim the conflict check must re-run and fail with
SchedulingConflict, yet the code never re-checks (the guard tests only
start/end) and applies the update. -/
theorem c4_counterexample :
    claimedUpdateConflict c4db 2 c4s2.start_time c4s2.end_time (some "X") = true ∧
    update_session c4db 7 2 c4patch = Except.ok (some (c4s2x, c4dbB)) ∧
    c4s2x.location = some "X" :=
  ⟨by decide, rfl, rfl⟩

/-- C4 amended: updateSession re-runs the conflict check only when the patch
sets the start or the end time; a patch touching only the location (or any
other field) is applied without any conflict check. When the check runs, it
uses the patched values merged with the existing ones (the location merged
by Python `or`), excludes the session itself, and fails with
SchedulingConflict exactly on an overlap under the create-session rule; in
all non-conflicting cases exactly the patched fields are applied and the
update timestamp is stamped. -/
theorem c4_amended (db : DB) (now : Int) (sid : Nat) (patch : SessionUpdate)
    (session : SessionModel) (h : getSession db sid = some session) (hsid : sid ≠ 0)
    (hwf : ∀ s ∈ db.sessions, s.start_time < s.end_time)
    (hr : patch.start_time.getD session.start_time <
      patch.end_time.getD session.end_time) :
    (patch.start_time = none ∧ patch.end_time = none →
      update_session db now sid patch = Except.ok
        (some (apply_session_update session patch now,
          setSession db (apply_session_update session patch now)))) ∧
    ((patch.start_time.isSome ∨ patch.end_time.isSome) →
      (update_session db now sid patch = Except.error Err.SchedulingConflict ↔
        ∃ s ∈ db.sessions, s.id ≠ sid ∧
          (s.status = SessionStatus.SCHEDULED ∨ s.status = SessionStatus.ONGOING) ∧
          s.start_time < patch.end_time.getD session.end_time ∧
          patch.start_time.getD session.start_time < s.end_time ∧
          (pyTruthyStr (pyOrStr (attrStr patch.location) session.location) = true →
            s.location = pyOrStr (attrStr patch.location) session.location)) ∧
      (¬(∃ s ∈ db.sessions, s.id ≠ sid ∧
          (s.status = SessionStatus.SCHEDULED ∨ s.status = SessionStatus.ONGOING) ∧
          s.start_time < patch.end_time.getD session.end_time ∧
          patch.start_time.getD session.start_time < s.end_time ∧
          (pyTruthyStr (pyOrStr (attrStr patch.location) session.location) = true →
            s.location = pyOrStr (attrStr patch.location) session.location)) →
        update_session db now sid patch = Except.ok
          (some (apply_session_update session patch now,
            setSession db (apply_session_update session patch now))))) ∧
    (apply_session_update session patch now).updated_at = some now := by
  unfold update_session
  simp only [h]
  refine ⟨?_, ?_, rfl⟩
  · rintro ⟨h1, h2⟩
    rw [h1, h2]
    simp
  · intro hor
    have hcond : (patch.start_time.isSome || patch.end_time.isSome) = true := by
      rcases hor with h1 | h1 <;> simp [h1]
    rw [if_pos hcond]
    by_cases hc : check_scheduling_conflicts db
        (patch.start_time.getD session.start_time)
        (patch.end_time.getD session.end_time)
        (pyOrStr (attrStr patch.location) session.location) (some sid) ≠ []
    · rw [if_pos hc]
      have hex := (check_conflicts_exclude_iff db
        (patch.start_time.getD session.start_time)
        (patch.end_time.getD session.end_time)
        (pyOrStr (attrStr patch.location) session.location) sid hsid hwf hr).mp hc
      exact ⟨⟨fun _ => hex, fun _ => rfl⟩, fun hn => absurd hex hn⟩
    · rw [if_neg hc]
      constructor
      · constructor
        · intro habs
          simp at habs
        · intro hex
          exact absurd ((check_conflicts_exclude_iff db
            (patch.start_time.getD session.start_time)
            (patch.end_time.getD session.end_time)
            (pyOrStr (attrStr patch.location) session.location)
            sid hsid hwf hr).mpr hex) hc
      · intro _
        rfl

/-- C4 witness: the amended theorem applied to a start-time patch that
triggers the conflict check and passes it. -/
theorem c4_witness :
    update_session c4db 7 2 c4patchB = Except.ok (some (c4s2y, c4dbC)) :=
  ((c4_amended c4db 7 2 c4patchB c4s2 (by decide) (by decide) (by decide)
    (by decide)).2.1 (Or.inl (by decide))).2 (by decide)

/-- Evaluation of create_booking once the session and its class are found:
the six checks in source order. -/
theorem create_booking_eq (db : DB) (now : Int) (sid uid : Nat)
    (notes : Option String) (s : SessionModel) (hs : getSession db sid = some s)
    (cls : Class) (hcls : getClass db s.class_id = some cls) :
    create_booking db now sid uid notes =
      (if s.status ≠ SessionStatus.SCHEDULED then some (Except.error Err.NotBookable)
      else if s.start_time ≤ now then some (Except.error Err.PastSession)
      else if get_session_booking_count db sid ≥ cls.max_capacity then
        some (Except.error Err.CapacityExceeded)
      else if db.bookings.any (fun b =>
          b.user_id == uid && b.session_id == sid && isActiveStatus b.status) then
        some (Except.error Err.DuplicateBooking)
      else if now > s.start_time - bookingDeadlineMinutes then
        some (Except.error Err.DeadlinePassed)
      else
        some (Except.ok
          ({ id := db.next_booking_id,
             user_id := uid,
             session_id := sid,
             status := BookingStatus.PENDING,
             booking_date := now,
             notes := notes,
             admin_notes := none,
             updated_at := none },
           { db with
             bookings := db.bookings ++
               [{ id := db.next_booking_id,
                  user_id := uid,
                  session_id := sid,
                  status := BookingStatus.PENDING,
                  booking_date := now,
                  notes := notes,
                  admin_notes := none,
                  updated_at := none }],
             next_booking_id := db.next_booking_id + 1 }))) := by
  simp only [create_booking, hs, hcls]

/-- The dup-check predicate of the source agrees with the spec-side
`hasActiveBookingFor`. -/
theorem any_active_iff (db : DB) (uid sid : Nat) :
    db.bookings.any (fun b =>
      b.user_id == uid && b.session_id == sid && isActiveStatus b.status) = true ↔
    hasActiveBookingFor db uid sid := by
  rw [List.any_eq_true, hasActiveBookingFor]
  constructor
  · rintro ⟨b, hb, hp⟩
    simp only [Bool.and_eq_true, beq_iff_eq] at hp
    exact ⟨b, hb, hp.1.1, hp.1.2, hp.2⟩
  · rintro ⟨b, hb, h1, h2, h3⟩
    exact ⟨b, hb, by simp [h1, h2, h3]⟩

/-- C2: for every createBooking call the failure checks run in this exact
order, each a distinct failure mode: NotFound (session missing), NotBookable
(status not SCHEDULED), PastSession (start time ≤ now), CapacityExceeded
(active count ≥ max_capacity), DuplicateBooking (an active booking for the
pair exists), DeadlinePassed (now strictly past start minus 2 hours, so a
call at exactly 2 hours before start does not fail with DeadlinePassed);
when no check fails, a PENDING booking timestamped `now` is persisted and
returned. -/
theorem c2_create_booking_checks (db : DB) (now : Int) (sid uid : Nat)
    (notes : Option String) :
    (create_booking db now sid uid notes = some (Except.error Err.NotFound) ↔
      getSession db sid = none) ∧
    ∀ session, getSession db sid = some session →
      (create_booking db now sid uid notes = some (Except.error Err.NotBookable) ↔
        session.status ≠ SessionStatus.SCHEDULED) ∧
      (create_booking db now sid uid notes = some (Except.error Err.PastSession) ↔
        session.status = SessionStatus.SCHEDULED ∧ session.start_time ≤ now) ∧
      ∀ cls, getClass db session.class_id = some cls →
        (create_booking db now sid uid notes = some (Except.error Err.CapacityExceeded) ↔
          session.status = SessionStatus.SCHEDULED ∧ now < session.start_time ∧
          cls.max_capacity ≤ get_session_booking_count db sid) ∧
        (create_booking db now sid uid notes = some (Except.error Err.DuplicateBooking) ↔
          session.status = SessionStatus.SCHEDULED ∧ now < session.start_time ∧
          get_session_booking_count db sid < cls.max_capacity ∧
          hasActiveBookingFor db uid sid) ∧
        (create_booking db now sid uid notes = some (Except.error Err.DeadlinePassed) ↔
          session.status = SessionStatus.SCHEDULED ∧ now < session.start_time ∧
          get_session_booking_count db sid < cls.max_capacity ∧
          ¬hasActiveBookingFor db uid sid ∧
          now > session.start_time - 120) ∧
        (now = session.start_time - 120 →
          create_booking db now sid uid notes ≠ some (Except.error Err.DeadlinePassed)) ∧
        (session.status = SessionStatus.SCHEDULED → now < session.start_time →
          get_session_booking_count db sid < cls.max_capacity →
          ¬hasActiveBookingFor db uid sid →
          now ≤ session.start_time - 120 →
          ∃ b2 db2, create_booking db now sid uid notes = some (Except.ok (b2, db2)) ∧
            b2.status = BookingStatus.PENDING ∧ b2.booking_date = now ∧
            b2.user_id = uid ∧ b2.session_id = sid ∧
            db2.bookings = db.bookings ++ [b2]) := by
  constructor
  · cases hs : getSession db sid with
    | none => simp [create_booking, hs]
    | some s =>
      simp only [reduceCtorEq, iff_false]
      intro h
      cases hcls : getClass db s.class_id with
      | none =>
        simp only [create_booking, hs, hcls] at h
        split_ifs at h <;> simp_all
      | some cls =>
        simp only [create_booking, hs, hcls] at h
        split_ifs at h <;> simp_all
  · intro session hsession
    refine ⟨?_, ?_, ?_⟩
    · constructor
      · intro h
        cases hcls : getClass db session.class_id with
        | none =>
          simp only [create_booking, hsession, hcls] at h
          split_ifs at h <;> simp_all
        | some cls =>
          simp only [create_booking, hsession, hcls] at h
          split_ifs at h <;> simp_all
      · intro h
        simp only [create_booking, hsession]
        rw [if_pos h]
    · constructor
      · intro h
        cases hcls : getClass db session.class_id with
        | none =>
          simp only [create_booking, hsession, hcls] at h
          split_ifs at h <;> simp_all
        | some cls =>
          simp only [create_booking, hsession, hcls] at h
          split_ifs at h <;> simp_all
      · rintro ⟨h1, h2⟩
        simp only [create_booking, hsession]
        rw [if_neg (by simp [h1]), if_pos h2]
    · intro cls hcls
      rw [create_booking_eq db now sid uid notes session hsession cls hcls]
      by_cases h1 : session.status = SessionStatus.SCHEDULED
      · rw [if_neg (by simp [h1])]
        by_cases h2 : session.start_time ≤ now
        · rw [if_pos h2]
          refine ⟨?_, ?_, ?_, ?_, ?_⟩
          · constructor
            · intro h
              simp at h
            · rintro ⟨-, hlt, -⟩
              omega
          · constructor
            · intro h
              simp at h
            · rintro ⟨-, hlt, -⟩
              omega
          · constructor
            · intro h
              simp at h
            · rintro ⟨-, hlt, -⟩
              omega
          · intro _ h
            simp at h
          · intro _ hlt _ _ _
            omega
        · rw [if_neg h2]
          by_cases h3 : get_session_booking_count db sid ≥ cls.max_capacity
          · rw [if_pos h3]
            refine ⟨?_, ?_, ?_, ?_, ?_⟩
            · constructor
              · intro _
                exact ⟨h1, by omega, h3⟩
              · intro _
                rfl
            · constructor
              · intro h
                simp at h
              · rintro ⟨-, -, hc, -⟩
                omega
            · constructor
              · intro h
                simp at h
              · rintro ⟨-, -, hc, -, -⟩
                omega
            · intro _ h
              simp at h
            · intro _ _ hcap _ _
              omega
          · rw [if_neg h3]
            by_cases h4 : db.bookings.any (fun b =>
                b.user_id == uid && b.session_id == sid &&
                isActiveStatus b.status) = true
            · rw [if_pos h4]
              have hdup := (any_active_iff db uid sid).mp h4
              refine ⟨?_, ?_, ?_, ?_, ?_⟩
              · constructor
                · intro h
                  simp at h
                · rintro ⟨-, -, hc⟩
                  exact absurd hc h3
              · constructor
                · intro _
                  exact ⟨h1, by omega, by omega, hdup⟩
                · intro _
                  rfl
              · constructor
                · intro h
                  simp at h
                · rintro ⟨-, -, -, hnd, -⟩
                  exact absurd hdup hnd
              · intro _ h
                simp at h
              · intro _ _ _ hnd _
                exact absurd hdup hnd
            · rw [if_neg h4]
              have hnd : ¬hasActiveBookingFor db uid sid := fun hc =>
                h4 ((any_active_iff db uid sid).mpr hc)
              by_cases h5 : now > session.start_time - bookingDeadlineMinutes
              · rw [if_pos h5]
                simp only [bookingDeadlineMinutes] at h5
                refine ⟨?_, ?_, ?_, ?_, ?_⟩
                · constructor
                  · intro h
                    simp at h
                  · rintro ⟨-, -, hc⟩
                    exact absurd hc h3
                · constructor
                  · intro h
                    simp at h
                  · rintro ⟨-, -, -, hc⟩
                    exact absurd hc hnd
                · constructor
                  · intro _
                    exact ⟨h1, by omega, by omega, hnd, h5⟩
                  · intro _
                    rfl
                · intro heq h
                  omega
                · intro _ _ _ _ hle
                  omega
              · rw [if_neg h5]
                simp only [bookingDeadlineMinutes] at h5
                refine ⟨?_, ?_, ?_, ?_, ?_⟩
                · constructor
                  · intro h
                    simp at h
                  · rintro ⟨-, -, hc⟩
                    exact absurd hc h3
                · constructor
                  · intro h
                    simp at h
                  · rintro ⟨-, -, -, hc⟩
                    exact absurd hc hnd
                · constructor
                  · intro h
                    simp at h
                  · rintro ⟨-, -, -, -, hc⟩
                    omega
                · intro _ h
                  simp at h
                · intro _ _ _ _ _
                  exact ⟨_, _, rfl, rfl, rfl, rfl, rfl, rfl⟩
      · rw [if_pos (by simp [h1])]
        refine ⟨?_, ?_, ?_, ?_, ?_⟩
        · constructor
          · intro h
            simp at h
          · rintro ⟨hc, -⟩
            exact absurd hc h1
        · constructor
          · intro h
            simp at h
          · rintro ⟨hc, -⟩
            exact absurd hc h1
        · constructor
          · intro h
            simp at h
          · rintro ⟨hc, -⟩
            exact absurd hc h1
        · intro _ h
          simp at h
        · intro hc
          exact absurd hc h1

/-- C2 witness: the characterization applied to the concrete store `c1db0`
at time 0 (the session starts at time 1000, well before the deadline). -/
theorem c2_witness :
    ∃ b2 db2, create_booking c1db0 0 1 10 none = some (Except.ok (b2, db2)) ∧
      b2.status = BookingStatus.PENDING ∧ b2.booking_date = 0 ∧
      b2.user_id = 10 ∧ b2.session_id = 1 ∧
      db2.bookings = c1db0.bookings ++ [b2] :=
  (((c2_create_booking_checks c1db0 0 1 10 none).2 sessA (by decide)).2.2 cls1
    (by decide)).2.2.2.2 (by decide) (by decide) (by decide) (by decide) (by decide)

/-- C1 counterexample: the capacity invariant does not survive every
sequence of public operations. User 10 books the capacity-1 session, an
administrative cancel frees the slot, user 20 books it, and then an
administrative update_booking (whose status overwrite is unguarded)
resurrects booking 1 to PENDING: session 1 ends with 2 active bookings
against max_capacity 1. -/
theorem c1_counterexample :
    create_booking c1db0 0 1 10 none = some (Except.ok (c1b1, c1db1)) ∧
    cancel_booking c1db1 0 1 none none = some (Except.ok (true, c1db2)) ∧
    create_booking c1db2 0 1 20 none = some (Except.ok (c1b2, c1db3)) ∧
    update_booking c1db3 0 1 c1patch none = Except.ok (some (c1b1r, c1db4)) ∧
    getClass c1db4 1 = some cls1 ∧ cls1.max_capacity = 1 ∧
    get_session_booking_count c1db4 1 = 2 ∧
    ¬ capacityInvariant c1db4 :=
  ⟨rfl, rfl, rfl, rfl, by decide, rfl, by decide, by decide⟩

/-- Inserting one booking for session `sid` preserves the capacity invariant
provided that session still had a free slot. -/
theorem capacity_preserved_insert (db : DB) (bNew : Booking) (sid : Nat)
    (session : SessionModel) (hs : getSession db sid = some session)
    (cls : Class) (hcls : getClass db session.class_id = some cls)
    (hnodup : (db.sessions.map SessionModel.id).Nodup)
    (hinv : capacityInvariant db)
    (hcap : get_session_booking_count db sid < cls.max_capacity)
    (hbsid : bNew.session_id = sid) :
    capacityInvariant { db with
      bookings := db.bookings ++ [bNew],
      next_booking_id := db.next_booking_id + 1 } := by
  intro s hsmem c hcmem hgc
  have hsmem2 : s ∈ db.sessions := hsmem
  have hgc2 : getClass db s.class_id = some c := hgc
  have hcmem2 : c ∈ db.classes := hcmem
  have hcount := count_bookings_append db { db with
    bookings := db.bookings ++ [bNew],
    next_booking_id := db.next_booking_id + 1 } bNew s.id rfl
  rw [hcount]
  by_cases hid : s.id = sid
  · have hsmem3 : session ∈ db.sessions := List.mem_of_find?_eq_some hs
    have hsid : session.id = sid := by simpa using List.find?_some hs
    have heq : s = session :=
      List.inj_on_of_nodup_map hnodup hsmem2 hsmem3 (by rw [hid, hsid])
    have heqc : c = cls := by
      rw [heq] at hgc2
      rw [hgc2] at hcls
      exact Option.some.inj hcls
    have hle : get_session_booking_count db s.id < cls.max_capacity := by
      rw [hid]
      exact hcap
    have hite : (if bNew.session_id == s.id && isActiveStatus bNew.status
        then 1 else 0) ≤ 1 := by
      split_ifs <;> omega
    rw [heqc]
    omega
  · have hzero : (bNew.session_id == s.id && isActiveStatus bNew.status) = false := by
      have hne : (bNew.session_id == s.id) = false := by
        rw [hbsid]
        simp
        omega
      rw [hne]
      simp
    rw [hzero]
    simpa using hinv s hsmem2 c hcmem2 hgc2

/-- C1 amended: the capacity invariant is enforced at booking-creation time
— a successful createBooking preserves it — and the concrete scenario of the
claim holds: with max_capacity 1 and a session starting more than 4 hours
away, user 10 books (PENDING), user 20's booking fails CapacityExceeded,
user 10's cancellation succeeds, and user 20's subsequent booking succeeds
(PENDING).  The invariant is NOT maintained by every public operation: the
unguarded status overwrite of update_booking can violate it (see the
counterexample), so the claim's quantification over all operation sequences
fails. -/
theorem c1_capacity_at_creation (db db' : DB) (now : Int) (sid uid : Nat)
    (notes : Option String) (b : Booking)
    (hnodup : (db.sessions.map SessionModel.id).Nodup)
    (hinv : capacityInvariant db)
    (hsucc : create_booking db now sid uid notes = some (Except.ok (b, db'))) :
    capacityInvariant db' ∧
    (create_booking c1db0 0 1 10 none = some (Except.ok (c1b1, c1db1)) ∧
     c1b1.status = BookingStatus.PENDING ∧
     create_booking c1db1 0 1 20 none = some (Except.error Err.CapacityExceeded) ∧
     cancel_booking c1db1 0 1 (some 10) none = some (Except.ok (true, c1db2)) ∧
     create_booking c1db2 0 1 20 none = some (Except.ok (c1b2, c1db3)) ∧
     c1b2.status = BookingStatus.PENDING) := by
  refine ⟨?_, rfl, rfl, rfl, rfl, rfl, rfl⟩
  cases hs : getSession db sid with
  | none =>
    simp only [create_booking, hs] at hsucc
    simp at hsucc
  | some session =>
    cases hcls : getClass db session.class_id with
    | none =>
      simp only [create_booking, hs, hcls] at hsucc
      split_ifs at hsucc <;> simp at hsucc
    | some cls =>
      simp only [create_booking, hs, hcls] at hsucc
      split_ifs at hsucc with h1 h2 h3 h4 h5
      · simp at hsucc
      · simp at hsucc
      · simp at hsucc
      · simp at hsucc
      · simp at hsucc
      · rw [Option.some.injEq] at hsucc
        injection hsucc with h6
        injection h6 with hbb hdd
        subst hbb
        rw [← hdd]
        exact capacity_preserved_insert db _ sid session hs cls hcls hnodup hinv
          (by omega) rfl

/-- C1 witness: the preservation theorem applied to the first booking of the
scenario store. -/
theorem c1_witness : capacityInvariant c1db1 :=
  (c1_capacity_at_creation c1db0 c1db1 0 1 10 none c1b1 (by decide) (by decide)
    rfl).1

end ClassBooking
